import Mathlib

/-!
Verification of the starfleet_status Ansible module
(library/starfleet_status.py and plugins/modules/starfleet_status.py).

The module renders a fixed-format status text from five named string
parameters, compares it with the content currently on disk at the target
path, and overwrites the file only when the content differs.  We embed the
module as a pure function over an explicit model of the single file path it
touches, together with a trace of the filesystem effects it performs.
-/

namespace Starfleet

/-- Model of a Python str.upper call on one character, restricted to the
ASCII range this module handles: a lowercase ASCII letter is mapped to its
uppercase form, every other character is unchanged. -/
def pyUpperChar (c : Char) : Char :=
  if c.isLower then Char.ofNat (c.toNat - 32) else c

/-- Model of a Python str.upper call on the ASCII strings this module
handles: every lowercase ASCII letter is mapped to its uppercase form. -/
def pyUpper (s : String) : String := String.mk (s.data.map pyUpperChar)

/-- State of the single target path before or after an invocation:
the path may be absent, present and readable with a given content, or
present but unreadable (permission error, is-a-directory, I/O failure,
with the text of the underlying cause). -/
inductive FileState where
  | absent : FileState
  | readable (content : String) : FileState
  | unreadable (cause : String) : FileState
deriving DecidableEq, Repr

/-- Behaviour of the one conditional write, mirroring the Python statement
with open(path, "w") as f: f.write(desired).  Opening in mode "w" truncates
the file before any byte is written, so a failure at open (permission,
is-a-directory) leaves the prior content intact, while a failure during the
write itself (disk full) leaves only the first k characters of the desired
content on disk. -/
inductive WriteBehavior where
  | succeeds : WriteBehavior
  | failsAtOpen (cause : String) : WriteBehavior
  | failsMidWrite (k : Nat) (cause : String) : WriteBehavior
deriving DecidableEq, Repr

/-- Environment of one invocation: the state of the target path and the
behaviour the platform would give to a write attempt. -/
structure Env where
  fileState : FileState
  writeBehavior : WriteBehavior
deriving DecidableEq, Repr

/-- Filesystem effects an invocation can perform, in order: the existence
check on the path, the read of the existing file, the write attempt. -/
inductive Effect where
  | existsCheck : Effect
  | read : Effect
  | write : Effect
deriving DecidableEq, Repr

/-- The raw parameters handed to the module: each may be present or
omitted. -/
structure RawParams where
  path : Option String
  ship : Option String
  registry : Option String
  alert_level : Option String
  captain : Option String
deriving DecidableEq, Repr

/-- The parameters after AnsibleModule validation: required fields present,
defaults substituted, alert_level inside the choices list. -/
structure ValidParams where
  path : String
  ship : String
  registry : String
  alert_level : String
  captain : String
deriving DecidableEq, Repr

/-- The choices list of the alert_level argument. -/
def alertChoices : List String := ["green", "yellow", "red"]

/-- Model of the AnsibleModule argument processing for the argument_spec of
both module copies: path, ship and registry are required with no default;
alert_level defaults to "green" and must be one of the choices; captain
defaults to "Unknown".  Validation happens in the AnsibleModule constructor,
before the module body performs any filesystem access. -/
def validate (raw : RawParams) : Except String ValidParams :=
  match raw.path with
  | none => Except.error "missing required arguments: path"
  | some path =>
    match raw.ship with
    | none => Except.error "missing required arguments: ship"
    | some ship =>
      match raw.registry with
      | none => Except.error "missing required arguments: registry"
      | some registry =>
        let alert := raw.alert_level.getD "green"
        if alertChoices.contains alert then
          Except.ok ⟨path, ship, registry, alert, raw.captain.getD "Unknown"⟩
        else
          Except.error ("value of alert_level must be one of: green, yellow, red, got: " ++ alert)

/-- The structured result carried by a successful exit_json call. -/
structure ModuleResult where
  changed : Bool
  msg : String
  written_path : String
  content : String
deriving DecidableEq, Repr

/-- Outcome of one invocation: a successful exit_json with a structured
result, or a fail_json with an error message. -/
inductive Outcome where
  | exitJson (r : ModuleResult) : Outcome
  | failJson (msg : String) : Outcome
deriving DecidableEq, Repr

/-- The build_content function of library/starfleet_status.py: a two-line
banner followed by four labelled lines, the alert level upper-cased, with a
trailing newline. -/
def build_content (ship registry alert_level captain : String) : String :=
  "STARFLEET STATUS REPORT\n" ++
  "======================\n" ++
  "SHIP        : " ++ ship ++ "\n" ++
  "REGISTRY    : " ++ registry ++ "\n" ++
  "CAPTAIN     : " ++ captain ++ "\n" ++
  "ALERT LEVEL : " ++ pyUpper alert_level ++ "\n"

/-- The desired content run_module renders from validated parameters. -/
def desiredOf (p : ValidParams) : String :=
  build_content p.ship p.registry p.alert_level p.captain

/-- The existing variable of run_module after the read step succeeds: it is
initialised to the empty string and overwritten with the content of the
file when the path exists and is readable.  The unreadable case aborts the
module before this value is used. -/
def existingContent : FileState → String
  | FileState.readable c => c
  | _ => ""

/-- The read step, lines 106 to 113 of library/starfleet_status.py: an
existence check, then a read when the path exists, which carries the
underlying cause when it fails. -/
def readStep : FileState → Except String (String × List Effect)
  | FileState.absent => Except.ok ("", [Effect.existsCheck])
  | FileState.readable c => Except.ok (c, [Effect.existsCheck, Effect.read])
  | FileState.unreadable cause => Except.error cause

/-- The body of run_module in library/starfleet_status.py after argument
validation: render the desired content, read the existing content, compare,
exit early in check mode, write only when changed, and report the result.
Returns the outcome, the state of the target path after the call, and the
ordered trace of filesystem effects performed. -/
def run_module (env : Env) (p : ValidParams) (checkMode : Bool) :
    Outcome × FileState × List Effect :=
  let desired := desiredOf p
  match readStep env.fileState with
  | Except.error cause =>
    (Outcome.failJson ("Failed to read existing file " ++ p.path ++ ": " ++ cause),
     env.fileState, [Effect.existsCheck, Effect.read])
  | Except.ok (existing, effs) =>
    let changed := existing != desired
    if checkMode then
      (Outcome.exitJson
        ⟨changed,
         if changed then "Check mode: would update status file."
         else "Check mode: status file already correct.",
         p.path, desired⟩,
       env.fileState, effs)
    else if changed then
      match env.writeBehavior with
      | WriteBehavior.succeeds =>
        (Outcome.exitJson ⟨changed, "Status file updated.", p.path, desired⟩,
         FileState.readable desired, effs ++ [Effect.write])
      | WriteBehavior.failsAtOpen cause =>
        (Outcome.failJson ("Failed to write file " ++ p.path ++ ": " ++ cause),
         env.fileState, effs ++ [Effect.write])
      | WriteBehavior.failsMidWrite k cause =>
        (Outcome.failJson ("Failed to write file " ++ p.path ++ ": " ++ cause),
         FileState.readable (desired.take k), effs ++ [Effect.write])
    else
      (Outcome.exitJson ⟨changed, "Status file already correct.", p.path, desired⟩,
       env.fileState, effs)

/-- The whole module of library/starfleet_status.py: AnsibleModule argument
validation, then the run_module body.  A validation failure surfaces before
any filesystem access, so the effect trace is empty and the path state is
untouched. -/
def module_main (env : Env) (raw : RawParams) (checkMode : Bool) :
    Outcome × FileState × List Effect :=
  match validate raw with
  | Except.error m => (Outcome.failJson m, env.fileState, [])
  | Except.ok p => run_module env p checkMode

end Starfleet

namespace Plugins

open Starfleet (pyUpper FileState WriteBehavior Env Effect ValidParams
  ModuleResult Outcome desiredOf readStep)

/-- The build_content function of plugins/modules/starfleet_status.py,
transcribed from that file. -/
def build_content (ship registry alert_level captain : String) : String :=
  "STARFLEET STATUS REPORT\n" ++
  "======================\n" ++
  "SHIP        : " ++ ship ++ "\n" ++
  "REGISTRY    : " ++ registry ++ "\n" ++
  "CAPTAIN     : " ++ captain ++ "\n" ++
  "ALERT LEVEL : " ++ pyUpper alert_level ++ "\n"

/-- The desired content the plugins copy renders from validated
parameters. -/
def desiredOfP (p : ValidParams) : String :=
  build_content p.ship p.registry p.alert_level p.captain

/-- The body of main in plugins/modules/starfleet_status.py after argument
validation: identical reconcile logic to the library copy, with slightly
different error and check-mode message wording. -/
def main_run (env : Env) (p : ValidParams) (checkMode : Bool) :
    Outcome × FileState × List Effect :=
  let desired := desiredOfP p
  match readStep env.fileState with
  | Except.error cause =>
    (Outcome.failJson ("Failed to read " ++ p.path ++ ": " ++ cause),
     env.fileState, [Effect.existsCheck, Effect.read])
  | Except.ok (existing, effs) =>
    let changed := existing != desired
    if checkMode then
      (Outcome.exitJson
        ⟨changed,
         if changed then "Check mode: would update status file."
         else "Check mode: status already correct.",
         p.path, desired⟩,
       env.fileState, effs)
    else if changed then
      match env.writeBehavior with
      | WriteBehavior.succeeds =>
        (Outcome.exitJson ⟨changed, "Status file updated.", p.path, desired⟩,
         FileState.readable desired, effs ++ [Effect.write])
      | WriteBehavior.failsAtOpen cause =>
        (Outcome.failJson ("Failed to write " ++ p.path ++ ": " ++ cause),
         env.fileState, effs ++ [Effect.write])
      | WriteBehavior.failsMidWrite k cause =>
        (Outcome.failJson ("Failed to write " ++ p.path ++ ": " ++ cause),
         FileState.readable (desired.take k), effs ++ [Effect.write])
    else
      (Outcome.exitJson ⟨changed, "Status file already correct.", p.path, desired⟩,
       env.fileState, effs)

end Plugins

namespace Starfleet

/-- Projection of an outcome onto the fields the two module copies are
claimed to agree on: the changed flag, the written_path and the content of
a successful result; none for a failure. -/
def outcomeCore : Outcome → Option (Bool × String × String)
  | Outcome.exitJson r => some (r.changed, r.written_path, r.content)
  | Outcome.failJson _ => none

/-- The four fixed success messages of the library copy, determined by the
pair of the changed flag and check mode. -/
def expectedMsg (changed checkMode : Bool) : String :=
  match checkMode, changed with
  | true, true => "Check mode: would update status file."
  | true, false => "Check mode: status file already correct."
  | false, true => "Status file updated."
  | false, false => "Status file already correct."

/-- A concrete validated parameter set, the example scenario of the module
documentation, used to exercise the theorems on concrete inputs. -/
def pEx : ValidParams :=
  ⟨"/tmp/starfleet-status.txt", "USS Enterprise", "NCC-1701", "yellow", "James T. Kirk"⟩

/-- The rendered desired content of the example parameters. -/
def dEx : String := desiredOf pEx

end Starfleet

namespace Starfleet

/-- C3: build_content returns exactly the fixed banner followed by the four
labelled lines in fixed order with fixed-width labels, the alert level
upper-cased, and a trailing newline; in particular alert_level yellow
renders the line ALERT LEVEL : YELLOW.  As a Lean function it is pure and
deterministic by construction. -/
theorem build_content_exact_format (ship registry alert_level captain : String) :
    build_content ship registry alert_level captain =
      "STARFLEET STATUS REPORT\n======================\nSHIP        : " ++ ship ++
      "\nREGISTRY    : " ++ registry ++ "\nCAPTAIN     : " ++ captain ++
      "\nALERT LEVEL : " ++ pyUpper alert_level ++ "\n" ∧
    build_content ship registry "yellow" captain =
      "STARFLEET STATUS REPORT\n======================\nSHIP        : " ++ ship ++
      "\nREGISTRY    : " ++ registry ++ "\nCAPTAIN     : " ++ captain ++
      "\nALERT LEVEL : YELLOW\n" := by
  constructor
  · simp [build_content, String.append_assoc]
  · simp [build_content, String.append_assoc]
    rw [show ("\nALERT LEVEL : " ++ (pyUpper "yellow" ++ "\n") : String) =
      "\nALERT LEVEL : YELLOW\n" by decide]

end Starfleet

namespace Starfleet

/-- C4: whenever the module reports a result, the reported changed flag
equals the exact string inequality between the existing content and the
rendered desired content, with no normalisation, and the existing content
of an absent path is the empty string. -/
theorem changed_eq_exact_inequality (env : Env) (p : ValidParams) (cm : Bool)
    (r : ModuleResult) (fs : FileState) (effs : List Effect)
    (h : run_module env p cm = (Outcome.exitJson r, fs, effs)) :
    r.changed = (existingContent env.fileState != desiredOf p) ∧
    existingContent FileState.absent = "" := by
  refine ⟨?_, rfl⟩
  rcases env with ⟨fst, wb⟩
  cases fst with
  | unreadable cause =>
    simp [run_module, readStep] at h
  | absent =>
    cases cm <;> cases wb <;>
      by_cases hc : ("" : String) = desiredOf p <;>
      simp [run_module, readStep, existingContent, hc] at h ⊢ <;>
      simp [← h.1, hc]
  | readable c =>
    cases cm <;> cases wb <;>
      by_cases hc : c = desiredOf p <;>
      simp [run_module, readStep, existingContent, hc] at h ⊢ <;>
      simp [← h.1, hc]

end Starfleet

namespace Starfleet

set_option maxRecDepth 4096 in
/-- Witness for C4: a concrete run on an absent path with the example
parameters reports changed equal to the exact inequality between the empty
existing content and the rendered content. -/
theorem changed_eq_exact_inequality_witness :
    (⟨true, "Status file updated.", pEx.path, dEx⟩ : ModuleResult).changed =
      (existingContent FileState.absent != desiredOf pEx) ∧
    existingContent FileState.absent = "" :=
  changed_eq_exact_inequality ⟨FileState.absent, WriteBehavior.succeeds⟩ pEx false
    ⟨true, "Status file updated.", pEx.path, dEx⟩ (FileState.readable dEx)
    [Effect.existsCheck, Effect.write] (by decide)

end Starfleet

namespace Starfleet

/-- C2: in check mode the module performs no write: the path state after
the call equals the state before it and no write effect appears in the
trace, whatever the prior state; and whenever the read does not fail the
module still reports the would-be changed value, the exact inequality
between the existing and the desired content, together with the rendered
content. -/
theorem dry_run_non_mutation (env : Env) (p : ValidParams) :
    (run_module env p true).2.1 = env.fileState ∧
    Effect.write ∉ (run_module env p true).2.2 ∧
    ((∀ cause, env.fileState ≠ FileState.unreadable cause) →
      (run_module env p true).1 = Outcome.exitJson
        ⟨existingContent env.fileState != desiredOf p,
         expectedMsg (existingContent env.fileState != desiredOf p) true,
         p.path, desiredOf p⟩) := by
  rcases env with ⟨fst, wb⟩
  cases fst with
  | unreadable cause =>
    refine ⟨rfl, by simp [run_module, readStep], ?_⟩
    intro hn
    exact absurd rfl (hn cause)
  | absent =>
    refine ⟨rfl, by simp [run_module, readStep], ?_⟩
    intro _
    by_cases hc : ("" : String) = desiredOf p
    · simp [run_module, readStep, existingContent, expectedMsg, hc]
    · have hb : (("" : String) != desiredOf p) = true := by simp [hc]
      simp [run_module, readStep, existingContent, expectedMsg, hb, hc]
  | readable c =>
    refine ⟨rfl, by simp [run_module, readStep], ?_⟩
    intro _
    by_cases hc : c = desiredOf p
    · simp [run_module, readStep, existingContent, expectedMsg, hc]
    · have hb : (c != desiredOf p) = true := by simp [hc]
      simp [run_module, readStep, existingContent, expectedMsg, hb, hc]

/-- Witness for C2: a concrete check-mode run on a path holding stale
content leaves the path state unchanged and reports the would-be outcome. -/
theorem dry_run_non_mutation_witness :
    (run_module ⟨FileState.readable "old", WriteBehavior.succeeds⟩ pEx true).2.1 =
      FileState.readable "old" ∧
    (run_module ⟨FileState.readable "old", WriteBehavior.succeeds⟩ pEx true).1 =
      Outcome.exitJson
        ⟨existingContent (FileState.readable "old") != desiredOf pEx,
         expectedMsg (existingContent (FileState.readable "old") != desiredOf pEx) true,
         pEx.path, desiredOf pEx⟩ :=
  ⟨(dry_run_non_mutation ⟨FileState.readable "old", WriteBehavior.succeeds⟩ pEx).1,
   (dry_run_non_mutation ⟨FileState.readable "old", WriteBehavior.succeeds⟩ pEx).2.2
     (by intro cause h; cases h)⟩

end Starfleet

namespace Starfleet

/-- C5: when the path exists but cannot be read, the module fails with a
read error whose message carries the underlying cause, reports no
comparison result, attempts no write, and leaves the path state
unchanged. -/
theorem read_failure_aborts (env : Env) (p : ValidParams) (cm : Bool) (cause : String)
    (h : env.fileState = FileState.unreadable cause) :
    run_module env p cm =
      (Outcome.failJson ("Failed to read existing file " ++ p.path ++ ": " ++ cause),
       env.fileState, [Effect.existsCheck, Effect.read]) := by
  rcases env with ⟨fst, wb⟩
  simp only at h
  subst h
  rfl

/-- Witness for C5: a concrete run against an unreadable path fails with
the read error and an unchanged path state. -/
theorem read_failure_aborts_witness :
    run_module ⟨FileState.unreadable "Permission denied", WriteBehavior.succeeds⟩ pEx false =
      (Outcome.failJson
        ("Failed to read existing file " ++ pEx.path ++ ": " ++ "Permission denied"),
       FileState.unreadable "Permission denied", [Effect.existsCheck, Effect.read]) :=
  read_failure_aborts ⟨FileState.unreadable "Permission denied", WriteBehavior.succeeds⟩
    pEx false "Permission denied" rfl

/-- C7: on every successful invocation, in check mode or not, changed or
not, the result echoes the input path in written_path, carries the fully
rendered desired content in content, and its msg is the fixed message
determined by the pair of the changed flag and check mode. -/
theorem result_contract (env : Env) (p : ValidParams) (cm : Bool)
    (r : ModuleResult) (fs : FileState) (effs : List Effect)
    (h : run_module env p cm = (Outcome.exitJson r, fs, effs)) :
    r.written_path = p.path ∧ r.content = desiredOf p ∧
    r.msg = expectedMsg r.changed cm := by
  rcases env with ⟨fst, wb⟩
  cases fst with
  | unreadable cause =>
    simp [run_module, readStep] at h
  | absent =>
    by_cases hc : ("" : String) = desiredOf p
    · cases cm <;> cases wb <;>
        simp [run_module, readStep, hc] at h <;>
        simp [← h.1, expectedMsg, hc]
    · have hb : (("" : String) != desiredOf p) = true := by simp [hc]
      cases cm <;> cases wb <;>
        simp [run_module, readStep, hc] at h <;>
        simp [← h.1, expectedMsg, hb]
  | readable c =>
    by_cases hc : c = desiredOf p
    · cases cm <;> cases wb <;>
        simp [run_module, readStep, hc] at h <;>
        simp [← h.1, expectedMsg, hc]
    · have hb : (c != desiredOf p) = true := by simp [hc]
      cases cm <;> cases wb <;>
        simp [run_module, readStep, hc] at h <;>
        simp [← h.1, expectedMsg, hb]

set_option maxRecDepth 4096 in
/-- Witness for C7: the result of a concrete successful run satisfies the
result contract. -/
theorem result_contract_witness :
    (⟨true, "Status file updated.", pEx.path, dEx⟩ : ModuleResult).written_path = pEx.path ∧
    (⟨true, "Status file updated.", pEx.path, dEx⟩ : ModuleResult).content = desiredOf pEx ∧
    (⟨true, "Status file updated.", pEx.path, dEx⟩ : ModuleResult).msg =
      expectedMsg (⟨true, "Status file updated.", pEx.path, dEx⟩ : ModuleResult).changed false :=
  result_contract ⟨FileState.absent, WriteBehavior.succeeds⟩ pEx false
    ⟨true, "Status file updated.", pEx.path, dEx⟩ (FileState.readable dEx)
    [Effect.existsCheck, Effect.write] (by decide)

/-- C8: in every invocation that omits captain, whatever alert_level value
is supplied, validation substitutes Unknown and the rendered output
contains the line CAPTAIN     : Unknown; and in every invocation that
omits alert_level, whatever captain value is supplied, validation
substitutes green and the rendered output contains the line
ALERT LEVEL : GREEN. -/
theorem default_substitution (path ship registry : String)
    (ao co : Option String) (vpa vpb : ValidParams)
    (ha : validate ⟨some path, some ship, some registry, ao, none⟩ = Except.ok vpa)
    (hb : validate ⟨some path, some ship, some registry, none, co⟩ = Except.ok vpb) :
    (vpa.captain = "Unknown" ∧
     ∃ pre post, build_content vpa.ship vpa.registry vpa.alert_level vpa.captain =
       pre ++ "CAPTAIN     : Unknown\n" ++ post) ∧
    (vpb.alert_level = "green" ∧
     ∃ pre, build_content vpb.ship vpb.registry vpb.alert_level vpb.captain =
       pre ++ "ALERT LEVEL : GREEN\n") := by
  constructor
  · simp only [validate, Option.getD] at ha
    split at ha
    · obtain rfl := (Except.ok.inj ha)
      refine ⟨rfl, ?_⟩
      refine ⟨"STARFLEET STATUS REPORT\n======================\nSHIP        : " ++ ship ++
        "\nREGISTRY    : " ++ registry ++ "\n",
        "ALERT LEVEL : " ++ pyUpper (ao.getD "green") ++ "\n", ?_⟩
      simp [build_content, String.append_assoc, Option.getD]
      rw [show ∀ Y : String, ("\nCAPTAIN     : Unknown\n" ++ ("ALERT LEVEL : " ++ Y) : String) =
          "\nCAPTAIN     : Unknown\nALERT LEVEL : " ++ Y from fun Y => by
        rw [← String.append_assoc]
        exact congrArg (· ++ Y) (by decide)]
    · exact Except.noConfusion ha
  · simp only [validate, Option.getD] at hb
    split at hb
    · obtain rfl := (Except.ok.inj hb)
      refine ⟨rfl, ?_⟩
      refine ⟨"STARFLEET STATUS REPORT\n======================\nSHIP        : " ++ ship ++
        "\nREGISTRY    : " ++ registry ++ "\nCAPTAIN     : " ++ co.getD "Unknown" ++ "\n", ?_⟩
      simp [build_content, String.append_assoc, Option.getD]
      rw [show ("\nALERT LEVEL : " ++ (pyUpper "green" ++ "\n") : String) =
        "\nALERT LEVEL : GREEN\n" by decide]
    · exact Except.noConfusion hb

set_option maxRecDepth 4096 in
/-- Witness for C8: with alert_level red supplied and captain omitted,
validation substitutes Unknown, and with captain Kirk supplied and
alert_level omitted, validation substitutes green; each rendered output
contains the respective default line. -/
theorem default_substitution_witness :
    ((⟨"/tmp/starfleet-status.txt", "USS Enterprise", "NCC-1701", "red", "Unknown"⟩ :
        ValidParams).captain = "Unknown" ∧
     ∃ pre post,
       build_content "USS Enterprise" "NCC-1701" "red" "Unknown" =
         pre ++ "CAPTAIN     : Unknown\n" ++ post) ∧
    ((⟨"/tmp/starfleet-status.txt", "USS Enterprise", "NCC-1701", "green", "James T. Kirk"⟩ :
        ValidParams).alert_level = "green" ∧
     ∃ pre,
       build_content "USS Enterprise" "NCC-1701" "green" "James T. Kirk" =
         pre ++ "ALERT LEVEL : GREEN\n") :=
  default_substitution "/tmp/starfleet-status.txt" "USS Enterprise" "NCC-1701"
    (some "red") (some "James T. Kirk")
    ⟨"/tmp/starfleet-status.txt", "USS Enterprise", "NCC-1701", "red", "Unknown"⟩
    ⟨"/tmp/starfleet-status.txt", "USS Enterprise", "NCC-1701", "green", "James T. Kirk"⟩
    rfl rfl

end Starfleet

namespace Starfleet

/-- C9: an invocation with a missing required field, or with an alert_level
value outside the enumerated choices, fails with a validation error before
any filesystem access: the outcome is a failure, the path state is
unchanged, and the effect trace is empty. -/
theorem validation_precedes_io (env : Env) (raw : RawParams) (cm : Bool)
    (h : raw.path = none ∨ raw.ship = none ∨ raw.registry = none ∨
      (∃ a, raw.alert_level = some a ∧ alertChoices.contains a = false)) :
    (∃ m, (module_main env raw cm).1 = Outcome.failJson m) ∧
    (module_main env raw cm).2.1 = env.fileState ∧
    (module_main env raw cm).2.2 = [] := by
  rcases raw with ⟨po, so, ro, ao, co⟩
  rcases h with h | h | h | ⟨a, ha, hcont⟩
  · simp only at h
    subst h
    exact ⟨⟨_, rfl⟩, rfl, rfl⟩
  · simp only at h
    subst h
    cases po <;> exact ⟨⟨_, rfl⟩, rfl, rfl⟩
  · simp only at h
    subst h
    cases po <;> cases so <;> exact ⟨⟨_, rfl⟩, rfl, rfl⟩
  · simp only at ha
    subst ha
    have hmem : a ∉ alertChoices := by simpa using hcont
    cases po <;> cases so <;> cases ro <;>
      simp [module_main, validate, hmem]

/-- Witness for C9: a concrete invocation with alert_level purple fails
with a validation error, leaves the path state unchanged and performs no
filesystem effect. -/
theorem validation_precedes_io_witness :
    (∃ m, (module_main ⟨FileState.readable "old", WriteBehavior.succeeds⟩
      ⟨some "/tmp/starfleet-status.txt", some "USS Enterprise", some "NCC-1701",
       some "purple", none⟩ false).1 = Outcome.failJson m) ∧
    (module_main ⟨FileState.readable "old", WriteBehavior.succeeds⟩
      ⟨some "/tmp/starfleet-status.txt", some "USS Enterprise", some "NCC-1701",
       some "purple", none⟩ false).2.1 = FileState.readable "old" ∧
    (module_main ⟨FileState.readable "old", WriteBehavior.succeeds⟩
      ⟨some "/tmp/starfleet-status.txt", some "USS Enterprise", some "NCC-1701",
       some "purple", none⟩ false).2.2 = [] :=
  validation_precedes_io ⟨FileState.readable "old", WriteBehavior.succeeds⟩
    ⟨some "/tmp/starfleet-status.txt", some "USS Enterprise", some "NCC-1701",
     some "purple", none⟩ false
    (Or.inr (Or.inr (Or.inr ⟨"purple", rfl, by decide⟩)))

end Starfleet

namespace Starfleet

/-- Helper: build_content never renders the empty string, since its banner
line alone is nonempty. -/
theorem build_content_ne_empty (s r a c : String) : build_content s r a c ≠ "" := by
  intro h
  have hl := congrArg String.length h
  rw [build_content] at hl
  simp only [String.length_append] at hl
  have hb : ("STARFLEET STATUS REPORT\n" : String).length = 24 := by decide
  have h0 : ("" : String).length = 0 := by decide
  omega

/-- Helper: a non-check run against a path that already holds the rendered
content reports changed false with the unchanged message, leaves the state
untouched and performs only the existence check and the read. -/
theorem run_module_already_correct (wb : WriteBehavior) (p : ValidParams) :
    run_module ⟨FileState.readable (desiredOf p), wb⟩ p false =
      (Outcome.exitJson ⟨false, "Status file already correct.", p.path, desiredOf p⟩,
       FileState.readable (desiredOf p), [Effect.existsCheck, Effect.read]) := by
  simp [run_module, readStep]

/-- C1: when a first non-check run succeeds, its changed flag is true
whenever the path was absent or held content different from the rendered
content; the path afterwards holds exactly the rendered content, and a
second non-check run with the same parameters, under any write behaviour,
reports changed false, leaves the path state untouched and performs no
write. -/
theorem reconcile_idempotent (env : Env) (wb2 : WriteBehavior) (p : ValidParams)
    (r1 : ModuleResult) (fs1 : FileState) (effs1 : List Effect)
    (h : run_module env p false = (Outcome.exitJson r1, fs1, effs1)) :
    ((env.fileState = FileState.absent ∨
      (∃ c, env.fileState = FileState.readable c ∧ c ≠ desiredOf p)) →
      r1.changed = true) ∧
    fs1 = FileState.readable (desiredOf p) ∧
    run_module ⟨fs1, wb2⟩ p false =
      (Outcome.exitJson ⟨false, "Status file already correct.", p.path, desiredOf p⟩,
       fs1, [Effect.existsCheck, Effect.read]) ∧
    Effect.write ∉ (run_module ⟨fs1, wb2⟩ p false).2.2 := by
  rcases env with ⟨fst, wb⟩
  have key : fs1 = FileState.readable (desiredOf p) ∧
      ((fst = FileState.absent ∨ (∃ c, fst = FileState.readable c ∧ c ≠ desiredOf p)) →
        r1.changed = true) := by
    cases fst with
    | unreadable cause => simp [run_module, readStep] at h
    | absent =>
      have hb : (("" : String) != desiredOf p) = true := by
        simp [bne_iff_ne]
        exact fun he => build_content_ne_empty p.ship p.registry p.alert_level p.captain he.symm
      cases wb <;> simp [run_module, readStep, hb] at h <;>
        exact ⟨h.2.1.symm, fun _ => by simp [← h.1]⟩
    | readable c =>
      by_cases hc : c = desiredOf p
      · subst hc
        simp [run_module, readStep] at h
        refine ⟨h.2.1.symm, ?_⟩
        rintro (hd | ⟨c', hc', hne⟩)
        · exact FileState.noConfusion hd
        · injection hc' with hcc
          exact absurd hcc.symm hne
      · have hb : (c != desiredOf p) = true := by simp [hc]
        cases wb <;> simp [run_module, readStep, hb] at h <;>
          exact ⟨h.2.1.symm, fun _ => by simp [← h.1]⟩
  obtain ⟨hfs, hch⟩ := key
  subst hfs
  refine ⟨hch, rfl, run_module_already_correct wb2 p, ?_⟩
  rw [run_module_already_correct wb2 p]
  simp

set_option maxRecDepth 4096 in
/-- Witness for C1: a concrete first run on an absent path writes the file
and reports changed, and the second run with the same parameters reports
unchanged, leaves the state untouched and performs no write. -/
theorem reconcile_idempotent_witness :
    ((FileState.absent = FileState.absent ∨
      (∃ c, FileState.absent = FileState.readable c ∧ c ≠ desiredOf pEx)) →
      (⟨true, "Status file updated.", pEx.path, dEx⟩ : ModuleResult).changed = true) ∧
    FileState.readable dEx = FileState.readable (desiredOf pEx) ∧
    run_module ⟨FileState.readable dEx, WriteBehavior.succeeds⟩ pEx false =
      (Outcome.exitJson ⟨false, "Status file already correct.", pEx.path, desiredOf pEx⟩,
       FileState.readable dEx, [Effect.existsCheck, Effect.read]) ∧
    Effect.write ∉ (run_module ⟨FileState.readable dEx, WriteBehavior.succeeds⟩ pEx false).2.2 :=
  reconcile_idempotent ⟨FileState.absent, WriteBehavior.succeeds⟩ WriteBehavior.succeeds pEx
    ⟨true, "Status file updated.", pEx.path, dEx⟩ (FileState.readable dEx)
    [Effect.existsCheck, Effect.write] (by decide)

end Starfleet

namespace Starfleet

set_option maxRecDepth 8192 in
/-- Counterexample to C6 as stated: with prior content old on disk and a
write that fails after the mode-w open has truncated the file (disk full
during the write), the module does fail with a write error carrying the
cause, but the path afterwards holds the empty string, not the prior
content: the claim that the content after a failed write equals the content
before does not hold of the code, which opens the target in truncating
write mode instead of writing to a temporary file and renaming. -/
theorem write_failure_not_intact :
    run_module ⟨FileState.readable "old",
        WriteBehavior.failsMidWrite 0 "No space left on device"⟩ pEx false =
      (Outcome.failJson
        ("Failed to write file " ++ pEx.path ++ ": " ++ "No space left on device"),
       FileState.readable "", [Effect.existsCheck, Effect.read, Effect.write]) ∧
    FileState.readable "" ≠ FileState.readable "old" := by
  constructor
  · decide
  · decide

/-- C6 amended: if the content differs, check mode is off and the write
fails, the module fails with a write error carrying the cause; when the
failure happens at open (permission, is-a-directory) the prior path state
is intact, and when it happens during the write (disk full) the path holds
the first k characters of the desired content, the prior content being
lost to the truncating open. -/
theorem write_failure_amended (env : Env) (p : ValidParams) (cause : String)
    (hread : ∀ c, env.fileState ≠ FileState.unreadable c)
    (hch : existingContent env.fileState ≠ desiredOf p) :
    (env.writeBehavior = WriteBehavior.failsAtOpen cause →
      (run_module env p false).1 =
        Outcome.failJson ("Failed to write file " ++ p.path ++ ": " ++ cause) ∧
      (run_module env p false).2.1 = env.fileState) ∧
    (∀ k, env.writeBehavior = WriteBehavior.failsMidWrite k cause →
      (run_module env p false).1 =
        Outcome.failJson ("Failed to write file " ++ p.path ++ ": " ++ cause) ∧
      (run_module env p false).2.1 = FileState.readable ((desiredOf p).take k)) := by
  rcases env with ⟨fst, wb⟩
  cases fst with
  | unreadable c => exact absurd rfl (hread c)
  | absent =>
    simp only [existingContent] at hch
    have hb : (("" : String) != desiredOf p) = true := by simp [hch]
    constructor
    · intro hw
      simp only at hw
      subst hw
      simp [run_module, readStep, hb]
    · intro k hw
      simp only at hw
      subst hw
      simp [run_module, readStep, hb]
  | readable c =>
    simp only [existingContent] at hch
    have hb : (c != desiredOf p) = true := by simp [hch]
    constructor
    · intro hw
      simp only at hw
      subst hw
      simp [run_module, readStep, hb]
    · intro k hw
      simp only at hw
      subst hw
      simp [run_module, readStep, hb]

set_option maxRecDepth 4096 in
/-- Witness for the amended C6: a concrete run whose write fails at open
with a permission error fails with the write error and leaves the prior
path state intact. -/
theorem write_failure_amended_witness :
    (run_module ⟨FileState.readable "old",
        WriteBehavior.failsAtOpen "Permission denied"⟩ pEx false).1 =
      Outcome.failJson ("Failed to write file " ++ pEx.path ++ ": " ++ "Permission denied") ∧
    (run_module ⟨FileState.readable "old",
        WriteBehavior.failsAtOpen "Permission denied"⟩ pEx false).2.1 =
      FileState.readable "old" :=
  (write_failure_amended ⟨FileState.readable "old",
      WriteBehavior.failsAtOpen "Permission denied"⟩ pEx "Permission denied"
    (by intro c h; cases h) (by decide)).1 rfl

end Starfleet

namespace Starfleet

/-- Helper: the rendered desired content of the plugins copy coincides with
that of the library copy. -/
theorem desiredOfP_eq (p : ValidParams) : Plugins.desiredOfP p = desiredOf p := rfl

/-- C10: the two build_content copies are extensionally equal, and on every
path state, validated parameters and mode the two module bodies agree on
success versus failure, on the changed flag, written path and content of a
successful result, on the final path state, and on the effect trace,
differing only in message wording. -/
theorem modules_equivalent (s r a c : String) (env : Env) (p : ValidParams) (cm : Bool) :
    build_content s r a c = Plugins.build_content s r a c ∧
    outcomeCore (run_module env p cm).1 = outcomeCore (Plugins.main_run env p cm).1 ∧
    (run_module env p cm).2.1 = (Plugins.main_run env p cm).2.1 ∧
    (run_module env p cm).2.2 = (Plugins.main_run env p cm).2.2 := by
  refine ⟨rfl, ?_, ?_, ?_⟩ <;>
  · rcases env with ⟨fst, wb⟩
    cases fst with
    | unreadable cause =>
      simp [run_module, Plugins.main_run, readStep, outcomeCore]
    | absent =>
      by_cases hc : ("" : String) = desiredOf p
      · cases cm <;> cases wb <;>
          simp [run_module, Plugins.main_run, readStep, outcomeCore, desiredOfP_eq, hc]
      · have hb : (("" : String) != desiredOf p) = true := by simp [hc]
        cases cm <;> cases wb <;>
          simp [run_module, Plugins.main_run, readStep, outcomeCore, desiredOfP_eq, hb]
    | readable c2 =>
      by_cases hc : c2 = desiredOf p
      · cases cm <;> cases wb <;>
          simp [run_module, Plugins.main_run, readStep, outcomeCore, desiredOfP_eq, hc]
      · have hb : (c2 != desiredOf p) = true := by simp [hc]
        cases cm <;> cases wb <;>
          simp [run_module, Plugins.main_run, readStep, outcomeCore, desiredOfP_eq, hb]

end Starfleet
